import Mathlib

/-!
Verification development for the Ashurbanipal document-retrieval engine.

The definitions below are a shallow embedding of the Python source:
`backend/embeddings/chunker.py`, `backend/embeddings/store.py`,
`backend/embeddings/async_store.py`, `backend/utils/caching.py`,
`backend/utils/resource_manager.py` and `backend/llm/rag_pipeline.py`.
Text is modelled as `List Char`, machine floats that only carry exact
decimal data are modelled as `ℚ`, and the floating-point cosine value is
modelled over `ℝ`.  Fallible operations return `Except` values; possible
failures of the relational engine are injected through an explicit flag.
-/

namespace Ashur

/-! ### Character utilities (Python `str` helpers used by the chunker) -/

/-- Python's `\s` class for the ASCII range: space, tab, newline, carriage
return, vertical tab and form feed. -/
def pyIsSpace (c : Char) : Bool :=
  c == ' ' || c == '\t' || c == '\n' || c == '\r' ||
  c == Char.ofNat 11 || c == Char.ofNat 12

/-- Python `str.strip()`: drop leading and trailing whitespace. -/
def stripChars (cs : List Char) : List Char :=
  ((cs.dropWhile pyIsSpace).reverse.dropWhile pyIsSpace).reverse

/-- `re.sub(r'\s+', ' ', text)`: collapse every maximal whitespace run to a
single space. -/
def collapseWs : List Char → List Char
  | [] => []
  | [c] => if pyIsSpace c then [' '] else [c]
  | c :: d :: cs =>
    if pyIsSpace c then
      if pyIsSpace d then collapseWs (d :: cs) else ' ' :: collapseWs (d :: cs)
    else c :: collapseWs (d :: cs)

/-- Index of the last newline inside a character list, if any. -/
def lastNlIdx (ws : List Char) : Option ℕ :=
  ((ws.enum.filter (fun p => p.2 = '\n')).getLast?).map (·.1)

/-- One left-to-right pass of `re.sub(r'\n\s*\n', '\n', text)`.  A match
starts at a newline and, by greedy backtracking, closes at the last newline
of the following whitespace run; the match is replaced by one newline and
scanning resumes after it.  The fuel argument only serves termination; it is
always at least the length of the remaining input. -/
def collapseBlankAux : ℕ → List Char → List Char
  | 0, _ => []
  | _ + 1, [] => []
  | f + 1, c :: cs =>
    if c = '\n' then
      match lastNlIdx (cs.takeWhile pyIsSpace) with
      | some k => '\n' :: collapseBlankAux f (cs.drop (k + 1))
      | none => '\n' :: collapseBlankAux f cs
    else c :: collapseBlankAux f cs

/-- `re.sub(r'\n\s*\n', '\n', text)`. -/
def collapseBlankLines (cs : List Char) : List Char :=
  collapseBlankAux cs.length cs

/-- `TextChunker._clean_text`: collapse whitespace runs, collapse blank
lines, then strip. -/
def cleanText (cs : List Char) : List Char :=
  stripChars (collapseBlankLines (collapseWs cs))

/-- Sentence-final punctuation recognised by the chunker's split regex. -/
def isSentEnd (c : Char) : Bool :=
  c == '.' || c == '!' || c == '?'

/-- Does the accumulator (stored reversed) end in sentence punctuation? -/
def accEndsSentence : List Char → Bool
  | [] => false
  | a :: _ => isSentEnd a

/-- Worker for `re.split(r'(?<=[.!?])\s+', text)`.  The Boolean records that
we are inside the whitespace run of a split point and must keep consuming
it; the accumulator holds the current piece reversed. -/
def splitSentAux : Bool → List Char → List Char → List (List Char)
  | _, acc, [] => [acc.reverse]
  | skipping, acc, c :: cs =>
    if skipping ∧ pyIsSpace c then splitSentAux true acc cs
    else if pyIsSpace c ∧ accEndsSentence acc then
      acc.reverse :: splitSentAux true [] cs
    else splitSentAux false (c :: acc) cs

/-- `re.split(r'(?<=[.!?])\s+', text)`: split at whitespace runs preceded by
`.`, `!` or `?`. -/
def splitSentences (cs : List Char) : List (List Char) :=
  splitSentAux false [] cs

/-- Word counter for `len(content.split())`. -/
def countWordsAux : Bool → List Char → ℕ
  | _, [] => 0
  | inWord, c :: cs =>
    if pyIsSpace c then countWordsAux false cs
    else if inWord then countWordsAux true cs
    else 1 + countWordsAux true cs

/-- `len(content.split())`: number of maximal non-whitespace runs. -/
def countWords (cs : List Char) : ℕ :=
  countWordsAux false cs

/-- Python `"%04d" % n`: decimal digits of `n` left-padded with zeros to at
least four characters. -/
def pad4 (n : ℕ) : String :=
  let s := toString n
  String.mk (List.replicate (4 - s.length) '0' ++ s.data)

/-! ### The chunker (`backend/embeddings/chunker.py`) -/

/-- Configuration of `TextChunker.__init__` (defaults 500 / 50 / 100). -/
structure ChunkerConfig where
  chunkSize : ℕ
  chunkOverlap : ℕ
  minChunkSize : ℕ
deriving DecidableEq, Repr

/-- The metadata computed by `TextChunker._create_chunk`; caller-supplied
metadata keys are passed through unchanged and are not modelled. -/
structure ChunkMeta where
  chunkNumber : ℕ
  totalLength : ℕ
  wordCount : ℕ
deriving DecidableEq, Repr

/-- The `TextChunk` dataclass. -/
structure TextChunk where
  content : List Char
  metadata : ChunkMeta
  chunkId : String
  sourceFile : String
  startPos : ℕ
  endPos : ℕ
deriving DecidableEq, Repr

/-- `TextChunker._create_chunk`. -/
def mkChunk (src : String) (content : List Char) (num startP endP : ℕ) : TextChunk :=
  { content := content
    metadata := ⟨num, content.length, countWords content⟩
    chunkId := src ++ "_" ++ pad4 num
    sourceFile := src
    startPos := startP
    endPos := endP }

/-- State threaded through the sentence-packing loop of
`TextChunker._chunk_by_sentences`: produced chunks, current chunk content,
current start offset, chunk counter. -/
structure SentLoopState where
  chunks : List TextChunk
  cur : List Char
  curStart : ℕ
  cnt : ℕ

/-- The body of the `for sentence in sentences` loop. -/
def sentStep (cfg : ChunkerConfig) (src : String) (st : SentLoopState)
    (s : List Char) : SentLoopState :=
  if cfg.chunkSize < st.cur.length + s.length ∧ st.cur ≠ [] then
    let chunk := mkChunk src (stripChars st.cur) st.cnt st.curStart
      (st.curStart + st.cur.length)
    let overlapStart := st.cur.length - cfg.chunkOverlap
    { chunks := st.chunks ++ [chunk]
      cur := st.cur.drop overlapStart ++ ' ' :: s
      curStart := st.curStart + overlapStart
      cnt := st.cnt + 1 }
  else
    { st with cur := if st.cur = [] then s else st.cur ++ ' ' :: s }

/-- `TextChunker._chunk_by_sentences`. -/
def chunkBySentences (cfg : ChunkerConfig) (src : String) (text : List Char) :
    List TextChunk :=
  let sents := splitSentences text
  let st := sents.foldl (sentStep cfg src) ⟨[], [], 0, 0⟩
  let stripped := stripChars st.cur
  if stripped ≠ [] ∧ cfg.minChunkSize ≤ stripped.length then
    st.chunks ++ [mkChunk src stripped st.cnt st.curStart (st.curStart + st.cur.length)]
  else st.chunks

/-- Python `range(0, n, step)`.  For `step = 0` Python raises `ValueError`;
here the list is empty (no claim instantiates a zero step). -/
def rangeStep (n step : ℕ) : List ℕ :=
  (List.range ((n + step - 1) / step)).map (· * step)

/-- The window loop of `TextChunker._chunk_by_characters`, over the list of
window start indices, carrying the chunk counter. -/
def charLoop (cfg : ChunkerConfig) (src : String) (text : List Char) :
    List ℕ → ℕ → List TextChunk
  | [], _ => []
  | i :: is, cnt =>
    let w := (text.drop i).take cfg.chunkSize
    let t := stripChars w
    if cfg.minChunkSize ≤ t.length then
      mkChunk src t cnt i (i + w.length) :: charLoop cfg src text is (cnt + 1)
    else charLoop cfg src text is cnt

/-- `TextChunker._chunk_by_characters`: fixed windows of `chunk_size`
characters taken every `chunk_size - chunk_overlap` characters. -/
def chunkByCharacters (cfg : ChunkerConfig) (src : String) (text : List Char) :
    List TextChunk :=
  charLoop cfg src text (rangeStep text.length (cfg.chunkSize - cfg.chunkOverlap)) 0

/-- `TextChunker.chunk_text`.  The float test
`len(chunk.content) > chunk_size * 1.5` is the exact integer comparison
`3 * chunk_size < 2 * len(chunk.content)`. -/
def chunkText (cfg : ChunkerConfig) (text : List Char) (src : String) :
    List TextChunk :=
  if text = [] ∨ (stripChars text).length < cfg.minChunkSize then []
  else
    let cleaned := cleanText text
    let chunks := chunkBySentences cfg src cleaned
    if chunks.any (fun c => 3 * cfg.chunkSize < 2 * c.content.length) then
      chunkByCharacters cfg src cleaned
    else chunks

/-- Character windows as the specification describes the fallback: windows
of `chunk_size` characters taken at a step of `chunk_overlap`.  This
definition follows the spec's words, for comparison with
`chunkByCharacters`, which is translated from the source. -/
def specStepWindows (cfg : ChunkerConfig) (src : String) (text : List Char) :
    List TextChunk :=
  charLoop cfg src text (rangeStep text.length cfg.chunkOverlap) 0

/-- The window starting at index `i`: `(i, raw window, trimmed window)` if
the trimmed window reaches `min_chunk_size`, else nothing. -/
def windowAt (cfg : ChunkerConfig) (text : List Char) (i : ℕ) :
    Option (ℕ × List Char × List Char) :=
  let w := (text.drop i).take cfg.chunkSize
  let t := stripChars w
  if cfg.minChunkSize ≤ t.length then some (i, w, t) else none

/-- Closed form of the character fallback as the amended claim words it:
the kept windows of `chunk_size` characters taken at a step of
`chunk_size - chunk_overlap`, dropping windows whose trimmed length is
below `min_chunk_size`, numbered sequentially. -/
def charWindowsDesc (cfg : ChunkerConfig) (src : String) (text : List Char) :
    List TextChunk :=
  (((rangeStep text.length (cfg.chunkSize - cfg.chunkOverlap)).filterMap
      (windowAt cfg text)).enum).map
    (fun p => mkChunk src p.2.2.2 p.1 p.2.1 (p.2.1 + p.2.2.1.length))

/-! ### Stable descending sort

Python's `list.sort(key=..., reverse=True)` is a stable sort placing larger
keys first; among equal keys the original order is preserved.  Stable sorts
by one key have a unique result, so a stable insertion sort is an exact
model. -/

/-- Insert `x` into a descending-sorted list, after all entries whose key is
at least `key x` (which keeps the sort stable). -/
def insertDescBy {α : Type} (key : α → ℚ) (x : α) : List α → List α
  | [] => [x]
  | y :: ys => if key y < key x then x :: y :: ys else y :: insertDescBy key x ys

/-- Stable descending insertion sort, inserting the elements left to
right. -/
def sortDescBy {α : Type} (key : α → ℚ) (l : List α) : List α :=
  l.foldl (fun acc x => insertDescBy key x acc) []

/-! ### The synchronous vector store (`backend/embeddings/store.py`)

The SQLite tables are modelled as association lists keyed by their primary
keys; `INSERT OR REPLACE` is an in-place upsert.  Columns that no claim
mentions (timestamps, `file_size`, `last_modified`) are not modelled.  The
in-memory `self.vectors` dict is an association list keyed by chunk id. -/

/-- An embedding vector (`np.ndarray` of floats, modelled exactly). -/
abbrev Vec := List ℚ

/-- A row of the `chunks` table. -/
structure ChunkRow where
  sourceFile : String
  content : List Char
  metadata : ChunkMeta
  startPos : ℕ
  endPos : ℕ
deriving DecidableEq, Repr

/-- A row of the `files` table (the columns `add_chunks` writes). -/
structure FileRow where
  filename : String
  chunkCount : ℕ
deriving DecidableEq, Repr

/-- Lookup in an association list (dict access / primary-key select). -/
def alookup {β : Type} (k : String) : List (String × β) → Option β
  | [] => none
  | (k', v) :: rest => if k' = k then some v else alookup k rest

/-- Insert-or-replace keyed by the first component (`INSERT OR REPLACE`,
dict assignment). -/
def upsert {β : Type} (k : String) (v : β) : List (String × β) → List (String × β)
  | [] => [(k, v)]
  | (k', v') :: rest => if k' = k then (k, v) :: rest else (k', v') :: upsert k v rest

/-- Remove a key from an association list (`del d[k]`). -/
def removeKey {β : Type} (k : String) (l : List (String × β)) : List (String × β) :=
  l.filter (fun p => p.1 ≠ k)

/-- Persistent and in-memory state owned by a `VectorStore`. -/
structure StoreState where
  chunks : List (String × ChunkRow)
  files : List (String × FileRow)
  vectors : List (String × Vec)
deriving DecidableEq, Repr

/-- Errors surfaced by store operations: input validation
(`ValueError`) and relational-engine failures. -/
inductive StoreErr where
  | validation
  | persistence
deriving DecidableEq, Repr

/-- `Path(source_file).name`: the final path component. -/
def baseName (s : String) : String :=
  (s.splitOn "/").getLastD s

/-- The row written for a chunk by `add_chunks`. -/
def chunkRowOf (c : TextChunk) : ChunkRow :=
  ⟨c.sourceFile, c.content, c.metadata, c.startPos, c.endPos⟩

/-- One iteration of the `files` update loop in `add_chunks`:
`INSERT OR REPLACE INTO files (filepath, filename, chunk_count)
VALUES (?, ?, COALESCE((SELECT chunk_count FROM files WHERE filepath = ?), 0) + 1)`. -/
def bumpFile (files : List (String × FileRow)) (src : String) :
    List (String × FileRow) :=
  upsert src ⟨baseName src, ((alookup src files).map (·.chunkCount)).getD 0 + 1⟩ files

/-- `VectorStore.add_chunks`.  The `dbFail` flag injects a relational
failure inside the transaction; the pooled-connection context manager rolls
the transaction back and the exception is re-raised before the in-memory
vector map is touched, so the state is returned unchanged.  On a length
mismatch the `ValueError` is raised before any work. -/
def addChunksRun (dbFail : Bool) (s : StoreState) (chunks : List TextChunk)
    (embeddings : List Vec) : Except StoreErr Unit × StoreState :=
  if chunks.length ≠ embeddings.length then (.error .validation, s)
  else if dbFail then (.error .persistence, s)
  else
    (.ok (),
      { chunks := chunks.foldl (fun t c => upsert c.chunkId (chunkRowOf c) t) s.chunks
        files := chunks.foldl (fun t c => bumpFile t c.sourceFile) s.files
        vectors := (chunks.zip embeddings).foldl
          (fun t p => upsert p.1.chunkId p.2 t) s.vectors })

/-- The similarity loop of `VectorStore.search`: score every stored vector
and keep the entries with `similarity >= similarity_threshold`.  The
floating-point `_cosine_similarity` is a parameter. -/
def searchFiltered (sim : Vec → Vec → ℚ) (vectors : List (String × Vec))
    (q : Vec) (thr : ℚ) : List (String × ℚ) :=
  (vectors.map (fun p => (p.1, sim q p.2))).filter (fun r => thr ≤ r.2)

/-- `VectorStore.search`: empty store short-circuits to `[]`; otherwise
filter by threshold, sort descending by score, truncate to `limit`. -/
def search (sim : Vec → Vec → ℚ) (vectors : List (String × Vec)) (q : Vec)
    (limit : ℕ) (thr : ℚ) : List (String × ℚ) :=
  if vectors = [] then []
  else (sortDescBy (·.2) (searchFiltered sim vectors q thr)).take limit

/-- `VectorStore.get_chunk`: point lookup by primary key; any database
error is caught, logged and turned into `None`, exactly like a miss. -/
def getChunk (dbFail : Bool) (s : StoreState) (chunkId : String) :
    Option ChunkRow :=
  if dbFail then none else alookup chunkId s.chunks

/-! ### The asynchronous store (`backend/embeddings/async_store.py`) -/

/-- One entry of the result list built by `AsyncVectorStore.search_similar`. -/
structure SimilarResult where
  chunkId : String
  row : ChunkRow
  score : ℚ
deriving DecidableEq, Repr

/-- The top similarities computed by `search_similar` before it queries the
database: score, filter by threshold, sort descending, truncate. -/
def asyncTopSimilarities (sim : Vec → Vec → ℚ) (s : StoreState) (q : Vec)
    (limit : ℕ) (thr : ℚ) : List (String × ℚ) :=
  (sortDescBy (·.2) (searchFiltered sim s.vectors q thr)).take limit

/-- `AsyncVectorStore.search_similar`.  If the top list is empty the
database is never queried and `[]` is returned.  Otherwise the chunk rows
are fetched (`WHERE chunk_id IN (...)`, rows in table order) and the results
are sorted descending by score.  A failure of the relational fetch,
injected by `dbFail`, is logged and re-raised by the handler at the end of
the method. -/
def asyncSearchSimilar (sim : Vec → Vec → ℚ) (dbFail : Bool) (s : StoreState)
    (q : Vec) (limit : ℕ) (thr : ℚ) : Except StoreErr (List SimilarResult) :=
  let top := asyncTopSimilarities sim s q limit thr
  if top = [] then .ok []
  else if dbFail then .error .persistence
  else
    let rows := s.chunks.filterMap (fun p =>
      match alookup p.1 top with
      | some sc => some (⟨p.1, p.2, sc⟩ : SimilarResult)
      | none => none)
    .ok (sortDescBy (·.score) rows)

/-! ### The cache layer (`backend/utils/caching.py`)

`MemoryCache` entries carry a value and an expiry instant; access times
drive LRU eviction.  Wall-clock instants are naturals passed in by the
caller.  `AsyncMemoryCache` runs the same logic under an async lock and is
modelled by the same functions. -/

/-- A cache slot: `{'value': ..., 'expires': ...}`. -/
structure CacheEntry where
  value : ℕ
  expires : ℕ
deriving DecidableEq, Repr

/-- State of one `MemoryCache` instance. -/
structure CacheState where
  maxSize : ℕ
  entries : List (String × CacheEntry)
  accessTimes : List (String × ℕ)
deriving DecidableEq, Repr

/-- `MemoryCache._cleanup_expired`: drop entries with
`current_time > expires` and their access times. -/
def cleanupExpired (now : ℕ) (st : CacheState) : CacheState :=
  let expiredKeys := (st.entries.filter (fun p => decide (p.2.expires < now))).map (·.1)
  { st with
    entries := st.entries.filter (fun p => ¬ p.2.expires < now)
    accessTimes := st.accessTimes.filter (fun q => q.1 ∉ expiredKeys) }

/-- First key with minimal access time (`min(keys, key=access_time)`). -/
def minAccessKey (l : List (String × ℕ)) : Option String :=
  (l.foldl (fun acc p =>
    match acc with
    | none => some p
    | some q => if p.2 < q.2 then some p else some q) none).map (·.1)

/-- `MemoryCache._evict_lru`: at capacity, evict the least recently
accessed key.  (`min` over an empty dict raises in Python; that branch is
unreachable while access times track entries.) -/
def evictLRU (st : CacheState) : CacheState :=
  if st.maxSize ≤ st.entries.length then
    match minAccessKey st.accessTimes with
    | some k => { st with entries := removeKey k st.entries
                          accessTimes := removeKey k st.accessTimes }
    | none => st
  else st

/-- `MemoryCache.get`. -/
def cacheGet (now : ℕ) (k : String) (st : CacheState) :
    Option ℕ × CacheState :=
  let st := cleanupExpired now st
  match alookup k st.entries with
  | some e =>
    if now ≤ e.expires then
      (some e.value, { st with accessTimes := upsert k now st.accessTimes })
    else
      (none, { st with entries := removeKey k st.entries
                       accessTimes := removeKey k st.accessTimes })
  | none => (none, st)

/-- `MemoryCache.set` with an explicit ttl. -/
def cacheSet (now : ℕ) (k : String) (v ttl : ℕ) (st : CacheState) : CacheState :=
  let st := cleanupExpired now st
  let st := evictLRU st
  { st with entries := upsert k ⟨v, now + ttl⟩ st.entries
            accessTimes := upsert k now st.accessTimes }

/-- `MemoryCache.delete`. -/
def cacheDelete (k : String) (st : CacheState) : CacheState :=
  { st with entries := removeKey k st.entries
            accessTimes := removeKey k st.accessTimes }

/-! ### The cached chunk count of the async store

`AsyncVectorStore.get_chunk_count` is wrapped by `@cache(ttl=300,
use_file_cache=False)`, which memoizes the result in the module-level
`_async_memory_cache` under the key `f"get_chunk_count:{md5 of the args}"`.
`AsyncVectorStore.add_chunks` deletes the key `"chunk_count"` from the
instance's own `self._cache`.  Both cache objects and the decorator's key
derivation are modelled; the md5 argument hash is an opaque string. -/

/-- State relevant to the cached-count interaction: the ids in the `chunks`
table, the global decorator cache and the store's own cache. -/
structure AsyncStoreSys where
  dbChunkIds : List String
  globalCache : CacheState
  selfCache : CacheState
deriving DecidableEq, Repr

/-- The decorator's cache key `f"{func.__name__}:{argument hash}"` for
`get_chunk_count`. -/
def decoratorKey (argsHash : String) : String :=
  "get_chunk_count:" ++ argsHash

/-- `AsyncVectorStore.get_chunk_count` as wrapped by the `cache`
decorator: consult the global async memory cache, else run
`SELECT COUNT(*) FROM chunks` and cache the result for 300 seconds. -/
def getChunkCountCached (now : ℕ) (argsHash : String) (sys : AsyncStoreSys) :
    ℕ × AsyncStoreSys :=
  match cacheGet now (decoratorKey argsHash) sys.globalCache with
  | (some v, g) => (v, { sys with globalCache := g })
  | (none, g) =>
    let v := sys.dbChunkIds.length
    (v, { sys with globalCache := cacheSet now (decoratorKey argsHash) v 300 g })

/-- `AsyncVectorStore.add_chunks`, reduced to the parts the cached count
can observe: validate lengths, upsert the chunk rows (`INSERT OR REPLACE`
keyed by `chunk_id`), then `await self._cache.adelete("chunk_count")`. -/
def asyncAddChunks (sys : AsyncStoreSys) (chunks : List TextChunk)
    (embeddings : List Vec) : Except StoreErr AsyncStoreSys :=
  if chunks.length ≠ embeddings.length then .error .validation
  else .ok
    { sys with
      dbChunkIds := chunks.foldl
        (fun ids c => if c.chunkId ∈ ids then ids else ids ++ [c.chunkId])
        sys.dbChunkIds
      selfCache := cacheDelete "chunk_count" sys.selfCache }

/-! ### The connection pool (`backend/utils/resource_manager.py`) -/

/-- State of a `DatabasePool`: the idle free list (LIFO), the in-use set,
the `_created_connections` counter and a source of fresh connection
identities. -/
structure PoolState where
  pool : List ℕ
  inUse : List ℕ
  created : ℕ
  nextId : ℕ
deriving DecidableEq, Repr

/-- Result of the acquisition half of `DatabasePool.get_connection`:
the connection handed out, whether it came from the over-limit fallback
branch, and the pool state afterwards. -/
structure AcqResult where
  conn : ℕ
  isTemp : Bool
  state : PoolState
deriving DecidableEq, Repr

/-- The acquisition half of `DatabasePool.get_connection`: pop the free
list if possible, else create a connection while under `max_connections`;
when exhausted the code only logs a warning, falls through without waiting
and creates a temporary over-limit connection (`_create_connection`
increments the created counter in every branch).  The connection is then
added to the in-use set. -/
def acquireConn (maxConn : ℕ) (s : PoolState) : AcqResult :=
  match s.pool with
  | c :: rest =>
    ⟨c, false, { s with pool := rest, inUse := c :: s.inUse }⟩
  | [] =>
    if s.created < maxConn then
      ⟨s.nextId, false,
        { pool := [], inUse := s.nextId :: s.inUse,
          created := s.created + 1, nextId := s.nextId + 1 }⟩
    else
      ⟨s.nextId, true,
        { pool := [], inUse := s.nextId :: s.inUse,
          created := s.created + 1, nextId := s.nextId + 1 }⟩

/-- The release half (the `finally` block) of
`DatabasePool.get_connection`: discard from the in-use set, then append to
the free list when it holds fewer than `max_connections` connections,
otherwise close the connection and decrement the created counter. -/
def releaseConn (maxConn : ℕ) (s : PoolState) (c : ℕ) : PoolState :=
  let inUse' := s.inUse.erase c
  if s.pool.length < maxConn then
    { s with inUse := inUse', pool := c :: s.pool }
  else
    { s with inUse := inUse', created := s.created - 1 }

/-! ### Cosine similarity (`VectorStore._cosine_similarity`)

`np.dot` on exact inputs is the rational dot product; `np.linalg.norm` is
its real square root.  The guard `norm1 == 0 or norm2 == 0` holds exactly
when the corresponding squared norm `dot(v, v)` is zero, which keeps the
branch decidable. -/

/-- `np.dot(vec1, vec2)` (numpy truncates to the shorter operand only for
equal shapes; the store always compares equal-dimension vectors). -/
def dotQ (v w : Vec) : ℚ :=
  (List.zipWith (fun a b => a * b) v w).sum

/-- `VectorStore._cosine_similarity`: `dot / (norm1 * norm2)`, returning
`0.0` when either norm is zero. -/
noncomputable def cosineSimilarity (v w : Vec) : ℝ :=
  if dotQ v v = 0 ∨ dotQ w w = 0 then 0
  else (dotQ v w : ℝ) / (Real.sqrt (dotQ v v) * Real.sqrt (dotQ w w))

/-! ### The RAG pipeline (`backend/llm/rag_pipeline.py`)

The embedding model and the LLM are black boxes that may fail; the vector
store collaborators are the functions modelled above (`get_chunk_count` and
`get_chunk_metadata` catch their own errors and return `0` / `None`, so
they enter as plain data).  Wall-clock timing is not modelled. -/

/-- A chat message dict `{"role": ..., "content": ...}`. -/
structure RagMsg where
  role : String
  content : String
deriving DecidableEq, Repr

/-- One entry of the source list: content truncated to a 200-character
preview for citation display. -/
structure RagSource where
  chunkId : String
  preview : List Char
  sourceFile : String
  score : ℚ
deriving DecidableEq, Repr

/-- The `RAGResult` dataclass (without the wall-clock
`response_time_ms`). -/
structure RAGResult where
  response : String
  sources : List RagSource
  contextUsed : List Char
  retrievalCount : ℕ
deriving DecidableEq, Repr

/-- The collaborators `RAGPipeline.query` calls, with their possible
failures. -/
structure RagDeps where
  chunkCount : ℕ
  storeVectors : List (String × Vec)
  sim : Vec → Vec → ℚ
  chunkMeta : String → Option ChunkRow
  embedQuery : Except StoreErr Vec
  generate : String → String → Except StoreErr String
  chat : List RagMsg → Except StoreErr String

/-- The apology text of the top-level handler in `RAGPipeline.query`. -/
def apologyResponse : String :=
  "I apologize, but I encountered an error processing your request. Please try again."

/-- `OllamaConfig.max_context_length`. -/
def maxContextLength : ℕ := 4000

/-- `OllamaConfig.rag_system_prompt`. -/
def ragSystemPrompt : String :=
  "You are a helpful research assistant. You have access to a user's document corpus and can answer questions based on the provided context. \n\nWhen answering:\n1. Use the provided context to answer questions accurately\n2. If the context doesn't contain relevant information, say so clearly\n3. Cite sources when possible\n4. Be concise but thorough\n5. If asked about something not in the context, acknowledge the limitation\n\nAlways be helpful, honest, and precise in your responses."

/-- Python `str.title()` for ASCII text: a letter is upper-cased after a
non-letter and lower-cased after a letter. -/
def titleCaseAux : Bool → List Char → List Char
  | _, [] => []
  | prevAlpha, c :: cs =>
    if c.isAlpha then
      (if prevAlpha then c.toLower else c.toUpper) :: titleCaseAux true cs
    else c :: titleCaseAux false cs

/-- Python `str.title()`. -/
def titleCase (s : String) : String :=
  String.mk (titleCaseAux false s.data)

/-- `"\n\n---\n\n".join(context_parts)`. -/
def joinContextParts (parts : List (List Char)) : List Char :=
  match parts with
  | [] => []
  | p :: ps => ps.foldl (fun acc q => acc ++ "\n\n---\n\n".data ++ q) p

/-- `RAGPipeline._create_rag_prompt`: history tail, delimited context,
question and grounding instruction, joined by newlines. -/
def createRagPrompt (userQuery : String) (context : List Char)
    (history : List RagMsg) : String :=
  let historyParts :=
    if history ≠ [] then
      "Previous conversation:" ::
        ((history.drop (history.length - 3)).filterMap (fun m =>
          if m.role ≠ "" ∧ m.content ≠ "" then
            some (titleCase m.role ++ ": " ++ m.content)
          else none)) ++ [""]
    else []
  let parts := historyParts ++
    ["Based on the following context from the user's documents:", "---",
      String.mk context, "---", "", "Question: " ++ userQuery, "",
      "Please provide a helpful and accurate answer based on the context above. If the context doesn't contain enough information to fully answer the question, please say so."]
  String.intercalate "\n" parts

/-- The retrieval step of `RAGPipeline.query` (executed when `use_context`
holds and the store is non-empty, after the query has been embedded):
search, fetch metadata per hit, build the source list and the joined,
possibly truncated context. -/
def ragRetrieve (d : RagDeps) (qe : Vec) (maxSources : ℕ) (thr : ℚ) :
    List RagSource × List Char :=
  let similar := search d.sim d.storeVectors qe maxSources thr
  let hits := similar.filterMap (fun p => (d.chunkMeta p.1).map (fun cd => (p, cd)))
  let sources := hits.map (fun h =>
    (⟨h.1.1, h.2.content.take 200 ++ "...".data, h.2.sourceFile, h.1.2⟩ : RagSource))
  let parts := hits.filterMap (fun h =>
    if h.2.content ≠ [] then
      some ("Source: ".data ++ h.2.sourceFile.data ++ '\n' :: h.2.content)
    else none)
  let ctx := joinContextParts parts
  let ctx :=
    if maxContextLength < ctx.length then
      ctx.take maxContextLength ++ "...\n[Context truncated]".data
    else ctx
  (sources, ctx)

/-- The body of `RAGPipeline.query` inside its `try`: any failure of the
embedding model or the LLM aborts the body with that error. -/
def ragQueryBody (d : RagDeps) (userQuery : String) (history : List RagMsg)
    (maxSources : ℕ) (thr : ℚ) (useContext : Bool) :
    Except StoreErr RAGResult := do
  let (sources, contextText) ←
    if useContext ∧ 0 < d.chunkCount then do
      let qe ← d.embedQuery
      pure (ragRetrieve d qe maxSources thr)
    else pure ([], [])
  let response ←
    if useContext ∧ contextText ≠ [] then
      d.generate (createRagPrompt userQuery contextText history) ragSystemPrompt
    else
      d.chat (history ++ [⟨"user", userQuery⟩])
  pure ⟨response, sources, contextText, sources.length⟩

/-- `RAGPipeline.query`: the top-level handler converts any failure into
the apology result with no sources and zero retrieval count. -/
def ragQuery (d : RagDeps) (userQuery : String) (history : List RagMsg)
    (maxSources : ℕ) (thr : ℚ) (useContext : Bool) : RAGResult :=
  match ragQueryBody d userQuery history maxSources thr useContext with
  | .ok r => r
  | .error _ => ⟨apologyResponse, [], [], 0⟩

/-! ### Concrete instances used by the claim demonstrations -/

/-- The example chunk of the spec's scenario:
`{id: "doc.txt_0000", content: "Paris is the capital of France."}`. -/
def docChunk : TextChunk :=
  mkChunk "doc.txt" "Paris is the capital of France.".data 0 0 31

/-- Store state after ingesting `docChunk` once into an empty store. -/
def reingestState1 : StoreState :=
  (addChunksRun false ⟨[], [], []⟩ [docChunk] [[1]]).2

/-- Store state after re-ingesting the same chunk a second time. -/
def reingestState2 : StoreState :=
  (addChunksRun false reingestState1 [docChunk] [[1]]).2

/-- A fresh chunk of a second file, for the cache-staleness run. -/
def newChunk : TextChunk :=
  mkChunk "new.txt" "Berlin is the capital of Germany.".data 0 0 33

/-- Async store over a database holding one chunk, with both caches empty
(sizes as constructed in the source: 1000 entries). -/
def staleDemoSys : AsyncStoreSys :=
  ⟨["doc.txt_0000"], ⟨1000, [], []⟩, ⟨1000, [], []⟩⟩

/-- Empty pool state for the exhaustion scenario. -/
def poolDemo0 : PoolState := ⟨[], [], 0, 0⟩

/-- First acquisition from the empty pool with `max_connections = 1`. -/
def poolDemoA1 : AcqResult := acquireConn 1 poolDemo0

/-- Second acquisition while the first connection is still in use: the pool
is exhausted, so this takes the over-limit fallback branch. -/
def poolDemoA2 : AcqResult := acquireConn 1 poolDemoA1.state

/-- RAG collaborators whose embedding call fails while the store is
non-empty. -/
def failingDeps : RagDeps where
  chunkCount := 1
  storeVectors := [("doc.txt_0000", [1])]
  sim := fun _ _ => 1
  chunkMeta := fun _ => none
  embedQuery := .error .persistence
  generate := fun _ _ => .ok "grounded answer"
  chat := fun _ => .ok "plain answer"

/-! ### Lemmas about the stable descending sort -/

theorem mem_insertDescBy {α : Type} (key : α → ℚ) (x : α) :
    ∀ (l : List α) (a : α), a ∈ insertDescBy key x l ↔ a = x ∨ a ∈ l
  | [], a => by simp [insertDescBy]
  | y :: ys, a => by
    unfold insertDescBy
    split
    · simp [List.mem_cons]
    · rw [List.mem_cons, mem_insertDescBy key x ys a, List.mem_cons]
      tauto

theorem length_insertDescBy {α : Type} (key : α → ℚ) (x : α) :
    ∀ l : List α, (insertDescBy key x l).length = l.length + 1
  | [] => rfl
  | y :: ys => by
    unfold insertDescBy
    split
    · simp
    · simp [length_insertDescBy key x ys]

theorem pairwise_insertDescBy {α : Type} (key : α → ℚ) (x : α) :
    ∀ {l : List α}, l.Pairwise (fun a b => key b ≤ key a) →
      (insertDescBy key x l).Pairwise (fun a b => key b ≤ key a)
  | [], _ => by simp [insertDescBy]
  | y :: ys, h => by
    obtain ⟨hy, hys⟩ := List.pairwise_cons.mp h
    unfold insertDescBy
    split
    case isTrue hlt =>
      refine List.pairwise_cons.mpr ⟨?_, List.pairwise_cons.mpr ⟨hy, hys⟩⟩
      intro b hb
      rcases List.mem_cons.mp hb with rfl | hb
      · exact le_of_lt hlt
      · exact le_trans (hy b hb) (le_of_lt hlt)
    case isFalse hge =>
      refine List.pairwise_cons.mpr ⟨?_, pairwise_insertDescBy key x hys⟩
      intro b hb
      rcases (mem_insertDescBy key x ys b).mp hb with rfl | hb
      · exact le_of_not_lt hge
      · exact hy b hb

theorem mem_sortAux {α : Type} (key : α → ℚ) :
    ∀ (l acc : List α) (a : α),
      (a ∈ l.foldl (fun acc x => insertDescBy key x acc) acc) ↔ (a ∈ acc ∨ a ∈ l)
  | [], _, a => by simp
  | x :: xs, acc, a => by
    rw [List.foldl_cons, mem_sortAux key xs _ a, mem_insertDescBy key x acc a,
      List.mem_cons]
    tauto

theorem pairwise_sortAux {α : Type} (key : α → ℚ) :
    ∀ (l acc : List α), acc.Pairwise (fun a b => key b ≤ key a) →
      (l.foldl (fun acc x => insertDescBy key x acc) acc).Pairwise
        (fun a b => key b ≤ key a)
  | [], _, h => h
  | x :: xs, _, h => pairwise_sortAux key xs _ (pairwise_insertDescBy key x h)

theorem mem_sortDescBy {α : Type} (key : α → ℚ) (l : List α) (a : α) :
    a ∈ sortDescBy key l ↔ a ∈ l := by
  unfold sortDescBy
  rw [mem_sortAux key l [] a]
  simp

theorem pairwise_sortDescBy {α : Type} (key : α → ℚ) (l : List α) :
    (sortDescBy key l).Pairwise (fun a b => key b ≤ key a) :=
  pairwise_sortAux key l [] (List.Pairwise.nil)

/-! ### Claim theorems -/

/-- C1: for every store state, similarity function, query embedding, limit
and threshold, `VectorStore.search` returns only pairs scoring at least the
threshold, returns at most `limit` pairs, and the result is sorted in
descending order of score. -/
theorem search_respects_threshold_limit_order (sim : Vec → Vec → ℚ)
    (vectors : List (String × Vec)) (q : Vec) (limit : ℕ) (thr : ℚ) :
    (∀ p ∈ search sim vectors q limit thr, thr ≤ p.2) ∧
    (search sim vectors q limit thr).length ≤ limit ∧
    (search sim vectors q limit thr).Pairwise (fun a b => b.2 ≤ a.2) := by
  unfold search
  split
  · simp
  · refine ⟨?_, ?_, ?_⟩
    · intro p hp
      have h1 : p ∈ sortDescBy (·.2) (searchFiltered sim vectors q thr) :=
        List.take_subset _ _ hp
      have h2 : p ∈ searchFiltered sim vectors q thr :=
        (mem_sortDescBy _ _ _).mp h1
      have h3 := List.of_mem_filter h2
      simpa using h3
    · rw [List.length_take]
      exact min_le_left _ _
    · exact List.Pairwise.sublist (List.take_sublist _ _)
        (pairwise_sortDescBy (fun p => p.2) (searchFiltered sim vectors q thr))

/-- Witness for C1 at a concrete store, query, limit and threshold. -/
theorem search_respects_threshold_limit_order_witness :
    (∀ p ∈ search (fun _ _ => 1) [("doc.txt_0000", [1]), ("new.txt_0000", [2])] [1] 1 0,
      (0 : ℚ) ≤ p.2) ∧
    (search (fun _ _ => 1) [("doc.txt_0000", [1]), ("new.txt_0000", [2])] [1] 1 0).length ≤ 1 ∧
    (search (fun _ _ => 1) [("doc.txt_0000", [1]), ("new.txt_0000", [2])] [1] 1 0).Pairwise
      (fun a b => b.2 ≤ a.2) :=
  search_respects_threshold_limit_order (fun _ _ => 1)
    [("doc.txt_0000", [1]), ("new.txt_0000", [2])] [1] 1 0

/-- C2 fails on the code: re-ingesting the same chunk id leaves one chunk
row for `doc.txt` while the file record's `chunk_count` has been bumped to
two, because the `files` upsert always adds one per chunk in the batch even
when the chunk row was replaced rather than inserted. -/
theorem file_chunk_count_drifts_on_reingestion :
    ((addChunksRun false reingestState1 [docChunk] [[1]]).1).toOption = some () ∧
    (reingestState2.chunks.filter (fun p => p.2.sourceFile = "doc.txt")).length = 1 ∧
    (alookup "doc.txt" reingestState2.files).map (fun f => f.chunkCount) = some 2 := by
  decide

/-- C3: a relational failure inside `add_chunks` is re-raised with the
store unchanged (the transaction rolls back and the vector map is never
touched), and a relational failure during the chunk-details fetch of the
asynchronous `search_similar` is re-raised rather than being turned into an
empty result.  (The synchronous `search` performs no relational operation
at all, so no relational failure can arise there.) -/
theorem persistence_failures_reraised :
    (∀ (s : StoreState) (chunks : List TextChunk) (embeddings : List Vec),
      chunks.length = embeddings.length →
      addChunksRun true s chunks embeddings = (.error .persistence, s)) ∧
    (∀ (sim : Vec → Vec → ℚ) (s : StoreState) (q : Vec) (limit : ℕ) (thr : ℚ),
      asyncTopSimilarities sim s q limit thr ≠ [] →
      asyncSearchSimilar sim true s q limit thr = .error .persistence) := by
  constructor
  · intro s chunks embeddings h
    simp [addChunksRun, h]
  · intro sim s q limit thr h
    simp [asyncSearchSimilar, h]

/-- Witness for C3: a failing add over a well-formed batch, and a failing
chunk fetch in a search whose top list is non-empty. -/
theorem persistence_failures_reraised_witness :
    addChunksRun true ⟨[], [], []⟩ [docChunk] [[1]] = (.error .persistence, ⟨[], [], []⟩) ∧
    asyncSearchSimilar (fun _ _ => 1) true ⟨[], [], [("doc.txt_0000", [1])]⟩ [1] 5 0 =
      .error .persistence :=
  ⟨persistence_failures_reraised.1 ⟨[], [], []⟩ [docChunk] [[1]] (by decide),
   persistence_failures_reraised.2 (fun _ _ => 1) ⟨[], [], [("doc.txt_0000", [1])]⟩ [1] 5 0
     (by decide)⟩

/-- C4: when the chunk and embedding lists have different lengths,
`add_chunks` fails with the validation error before doing any work, so the
chunk table, the file table and the in-memory vector map are all exactly as
before. -/
theorem add_chunks_mismatch_rejected_without_mutation (dbFail : Bool)
    (s : StoreState) (chunks : List TextChunk) (embeddings : List Vec)
    (h : chunks.length ≠ embeddings.length) :
    addChunksRun dbFail s chunks embeddings = (.error .validation, s) := by
  unfold addChunksRun
  rw [if_pos h]

/-- Witness for C4 on a concrete mismatched call. -/
theorem add_chunks_mismatch_rejected_without_mutation_witness :
    addChunksRun false reingestState1 [docChunk] [] = (.error .validation, reingestState1) :=
  add_chunks_mismatch_rejected_without_mutation false reingestState1 [docChunk] []
    (by decide)

/-- The character-window loop equals its closed form, for any start indices
and starting chunk number. -/
theorem charLoop_eq_desc (cfg : ChunkerConfig) (src : String) (text : List Char) :
    ∀ (idxs : List ℕ) (cnt : ℕ),
      charLoop cfg src text idxs cnt =
        ((idxs.filterMap (windowAt cfg text)).enumFrom cnt).map
          (fun p => mkChunk src p.2.2.2 p.1 p.2.1 (p.2.1 + p.2.2.1.length))
  | [], _ => rfl
  | i :: is, cnt => by
    rw [List.filterMap_cons]
    by_cases h : cfg.minChunkSize ≤ (stripChars ((text.drop i).take cfg.chunkSize)).length
    · have hw : windowAt cfg text i =
          some (i, (text.drop i).take cfg.chunkSize,
            stripChars ((text.drop i).take cfg.chunkSize)) := by
        simp [windowAt, h]
      rw [hw]
      show (if cfg.minChunkSize ≤ (stripChars ((text.drop i).take cfg.chunkSize)).length
          then _ else _) = _
      rw [if_pos h, List.enumFrom_cons, List.map_cons,
        charLoop_eq_desc cfg src text is (cnt + 1)]
    · have hw : windowAt cfg text i = none := by
        simp [windowAt, h]
      rw [hw]
      show (if cfg.minChunkSize ≤ (stripChars ((text.drop i).take cfg.chunkSize)).length
          then _ else _) = _
      rw [if_neg h, charLoop_eq_desc cfg src text is cnt]

/-- `_chunk_by_characters` equals the closed-form window description. -/
theorem chunkByCharacters_eq_desc (cfg : ChunkerConfig) (src : String)
    (text : List Char) :
    chunkByCharacters cfg src text = charWindowsDesc cfg src text := by
  unfold chunkByCharacters charWindowsDesc
  rw [charLoop_eq_desc]
  rfl

/-- C6 counterexample: chunking `"abcdefghijklmnopqrstuv"` with
`chunk_size = 10`, `chunk_overlap = 4`, `min_chunk_size = 5` triggers the
fallback (the single sentence-chunk of 22 characters exceeds 15); the code
produces windows at step `chunk_size - chunk_overlap = 6`, not at step
`chunk_overlap = 4` as the claim states, so the chunk contents differ. -/
theorem chunk_text_fallback_differs_from_spec_step :
    (chunkText ⟨10, 4, 5⟩ "abcdefghijklmnopqrstuv".data "f").map (fun c => c.content) ≠
    (specStepWindows ⟨10, 4, 5⟩ "f" (cleanText "abcdefghijklmnopqrstuv".data)).map
      (fun c => c.content) := by
  decide

/-- C6 amended: if any chunk produced by the sentence-based strategy
exceeds `1.5 × chunk_size`, the chunker discards the sentence-based chunks
and instead returns fixed-size character windows of length `chunk_size`
taken at a step of `chunk_size - chunk_overlap`, dropping every window
whose trimmed length is below `min_chunk_size`. -/
theorem chunk_text_oversize_falls_back_to_windows (cfg : ChunkerConfig)
    (text : List Char) (src : String)
    (hne : ¬(text = [] ∨ (stripChars text).length < cfg.minChunkSize))
    (hbig : (chunkBySentences cfg src (cleanText text)).any
      (fun c => 3 * cfg.chunkSize < 2 * c.content.length)) :
    chunkText cfg text src = charWindowsDesc cfg src (cleanText text) := by
  unfold chunkText
  rw [if_neg hne]
  dsimp only
  rw [if_pos hbig]
  exact chunkByCharacters_eq_desc cfg src (cleanText text)

/-- Witness for the amended C6 on the counterexample input. -/
theorem chunk_text_oversize_falls_back_to_windows_witness :
    chunkText ⟨10, 4, 5⟩ "abcdefghijklmnopqrstuv".data "f" =
      charWindowsDesc ⟨10, 4, 5⟩ "f" (cleanText "abcdefghijklmnopqrstuv".data) :=
  chunk_text_oversize_falls_back_to_windows ⟨10, 4, 5⟩
    "abcdefghijklmnopqrstuv".data "f" (by decide) (by decide)

/-- C7 counterexample: with `max_connections = 1` and the only pooled
connection in use, a second caller receives the over-limit fallback
connection without waiting, and releasing it appends it to the idle pool
(the free list is empty, hence below capacity) instead of closing it. -/
theorem pool_over_limit_connection_pooled_on_release :
    poolDemoA2.isTemp = true ∧
    (releaseConn 1 poolDemoA2.state poolDemoA2.conn).pool = [poolDemoA2.conn] := by
  decide

/-- C7 amended: on exhaustion (`pool` empty and `created ≥ max`), the
acquiring caller never waits: it receives a fresh over-limit connection and
the created counter passes the limit.  On release, any connection is
appended to the idle pool exactly when the pool holds fewer than
`max_connections` connections and is closed (with the counter decremented)
otherwise; consequently the idle pool never retains more than
`max_connections` connections. -/
theorem pool_exhaustion_fallback_and_pool_bound (m : ℕ) (s : PoolState) (c : ℕ) :
    (s.pool = [] → m ≤ s.created →
      acquireConn m s = ⟨s.nextId, true,
        { pool := [], inUse := s.nextId :: s.inUse,
          created := s.created + 1, nextId := s.nextId + 1 }⟩) ∧
    (s.pool.length < m → (releaseConn m s c).pool = c :: s.pool) ∧
    (m ≤ s.pool.length →
      (releaseConn m s c).pool = s.pool ∧
      (releaseConn m s c).created = s.created - 1) ∧
    (s.pool.length ≤ m →
      (acquireConn m s).state.pool.length ≤ m ∧
      (releaseConn m s c).pool.length ≤ m) := by
  refine ⟨?_, ?_, ?_, ?_⟩
  · intro hpool hcr
    unfold acquireConn
    rw [hpool]
    rw [if_neg (by omega)]
  · intro h
    unfold releaseConn
    rw [if_pos h]
  · intro h
    unfold releaseConn
    rw [if_neg (by omega)]
    exact ⟨rfl, rfl⟩
  · intro h
    constructor
    · rcases hp : s.pool with _ | ⟨x, xs⟩
      · unfold acquireConn
        rw [hp]
        dsimp only
        split
        · simp
        · simp
      · unfold acquireConn
        rw [hp]
        rw [hp] at h
        simp at h ⊢
        omega
    · unfold releaseConn
      split
      next h' =>
        simp
        omega
      next h' =>
        simpa using h

/-- Witness for the amended C7 at `max_connections = 1` with the single
created connection in use. -/
theorem pool_exhaustion_fallback_and_pool_bound_witness :
    acquireConn 1 ⟨[], [0], 1, 1⟩ =
      ⟨1, true, { pool := [], inUse := [1, 0], created := 2, nextId := 2 }⟩ ∧
    (releaseConn 1 ⟨[], [0], 1, 1⟩ 0).pool = [0] :=
  ⟨(pool_exhaustion_fallback_and_pool_bound 1 ⟨[], [0], 1, 1⟩ 0).1 rfl (by decide),
   (pool_exhaustion_fallback_and_pool_bound 1 ⟨[], [0], 1, 1⟩ 0).2.1 (by decide)⟩

/-- C5 fails on the code: after `get_chunk_count` has been memoized by the
`cache` decorator in the global async memory cache, `add_chunks` deletes
the key `"chunk_count"` from the store's own `self._cache`, which never
holds the decorator's key `"get_chunk_count:<args hash>"`; a
`get_chunk_count` call within the 300-second ttl therefore returns the
stale cached count (1) although the table now holds 2 chunks — for every
possible argument hash. -/
theorem add_chunks_leaves_chunk_count_cache_stale (argsHash : String) :
    (getChunkCountCached 0 argsHash staleDemoSys).1 = 1 ∧
    (asyncAddChunks (getChunkCountCached 0 argsHash staleDemoSys).2
        [newChunk] [[1]]).map
      (fun sys2 => (sys2.dbChunkIds.length, (getChunkCountCached 100 argsHash sys2).1))
      = .ok (2, 1) := by
  constructor
  · simp [getChunkCountCached, cacheGet, cleanupExpired, alookup, staleDemoSys]
  · simp [getChunkCountCached, cacheGet, cacheSet, cleanupExpired, evictLRU,
      minAccessKey, alookup, upsert, removeKey, cacheDelete, asyncAddChunks,
      staleDemoSys, Except.map]
    decide

/-- C8: any failure raised inside the body of `RAGPipeline.query` —
retrieval (query embedding) or generation (LLM call) — is caught at the top
level and converted into the apology response with an empty source list and
zero retrieval count, instead of propagating. -/
theorem rag_query_failure_yields_apology (d : RagDeps) (userQuery : String)
    (history : List RagMsg) (maxSources : ℕ) (thr : ℚ) (useContext : Bool)
    (h : ∃ e, ragQueryBody d userQuery history maxSources thr useContext = .error e) :
    ragQuery d userQuery history maxSources thr useContext =
      ⟨apologyResponse, [], [], 0⟩ := by
  obtain ⟨e, he⟩ := h
  unfold ragQuery
  rw [he]

/-- Witness for C8: the embedding model fails while the store is non-empty
and context is requested. -/
theorem rag_query_failure_yields_apology_witness :
    ragQuery failingDeps "What is the capital of France?" [] 5 0 true =
      ⟨apologyResponse, [], [], 0⟩ :=
  rag_query_failure_yields_apology failingDeps "What is the capital of France?" [] 5 0 true
    ⟨.persistence, rfl⟩

/-- The squared norm `np.dot(v, v)` is a sum of squares, hence
non-negative. -/
theorem dotQ_self_nonneg (v : Vec) : 0 ≤ dotQ v v := by
  induction v with
  | nil => simp [dotQ]
  | cons x xs ih =>
    have hstep : dotQ (x :: xs) (x :: xs) = x * x + dotQ xs xs := by
      simp [dotQ]
    rw [hstep]
    exact add_nonneg (mul_self_nonneg x) ih

/-- C9: the cosine similarity of the store is total — whenever either
vector has zero norm it returns exactly `0.0` (the division is guarded) —
and for every vector of nonzero norm the similarity with itself is exactly
`1.0`. -/
theorem cosine_similarity_guard_and_self :
    (∀ v w : Vec, dotQ v v = 0 ∨ dotQ w w = 0 → cosineSimilarity v w = 0) ∧
    (∀ v : Vec, dotQ v v ≠ 0 → cosineSimilarity v v = 1) := by
  constructor
  · intro v w h
    unfold cosineSimilarity
    rw [if_pos h]
  · intro v h
    unfold cosineSimilarity
    rw [if_neg (by tauto)]
    rw [Real.mul_self_sqrt (by exact_mod_cast dotQ_self_nonneg v)]
    exact div_self (by exact_mod_cast h)

/-- Witness for C9: the zero vector against `[1]`, and the unit vector
`[1, 0]` against itself. -/
theorem cosine_similarity_guard_and_self_witness :
    cosineSimilarity [0] [1] = 0 ∧ cosineSimilarity [1, 0] [1, 0] = 1 :=
  ⟨cosine_similarity_guard_and_self.1 [0] [1] (Or.inl (by norm_num [dotQ])),
   cosine_similarity_guard_and_self.2 [1, 0] (by norm_num [dotQ])⟩

/-- C10: `get_chunk` returns `None` both when the underlying query fails
(the handler catches the error) and when no row with the requested id
exists, so the caller cannot tell a missing chunk from a persistence
error. -/
theorem get_chunk_none_on_error_and_miss :
    (∀ (s : StoreState) (chunkId : String), getChunk true s chunkId = none) ∧
    (∀ (s : StoreState) (chunkId : String), alookup chunkId s.chunks = none →
      getChunk false s chunkId = none) := by
  constructor
  · intro s chunkId
    rfl
  · intro s chunkId h
    simpa [getChunk] using h

/-- Witness for C10 on a store holding one chunk and a missing id. -/
theorem get_chunk_none_on_error_and_miss_witness :
    getChunk true ⟨[("doc.txt_0000", chunkRowOf docChunk)], [], []⟩ "missing" = none ∧
    getChunk false ⟨[("doc.txt_0000", chunkRowOf docChunk)], [], []⟩ "missing" = none :=
  ⟨get_chunk_none_on_error_and_miss.1 ⟨[("doc.txt_0000", chunkRowOf docChunk)], [], []⟩
      "missing",
   get_chunk_none_on_error_and_miss.2 ⟨[("doc.txt_0000", chunkRowOf docChunk)], [], []⟩
      "missing" (by decide)⟩

end Ashur
